import Mathlib

/-!
Verification of the permission-confirmation data model from
`crates/goose/src/permission/permission_confirmation.rs`.

The source declares two unit-variant enums, `Permission` and `PrincipalType`,
and a struct `PermissionConfirmation`, all with derived serde
`Serialize`/`Deserialize` (and derived `PartialEq`/`Eq` on the enums).
We embed the types directly and model the derived serde code over a small
JSON-like value type:
- a unit enum variant serializes to a string holding its literal variant
  name, and deserializes only from exactly one of those strings (any other
  tag is an unknown-variant error);
- the struct serializes to a field map with its field names as keys in
  declaration order, and deserializes from a field map by scanning entries:
  a known key must not repeat (duplicate-field error) and its value is
  deserialized with the field type's deserializer, an unknown key is
  skipped (serde's default without `deny_unknown_fields`), and after the
  scan every field must have been seen (missing-field error).
Failure is `Option.none`.
-/

/-- A structured interchange value (the JSON data model serde_json targets).
Objects are association lists in emission order. -/
inductive Json where
  | null : Json
  | bool : Bool → Json
  | num : Int → Json
  | str : String → Json
  | arr : List Json → Json
  | obj : List (String × Json) → Json

/-- `enum Permission { AlwaysAllow, AllowOnce, DenyOnce }` -/
inductive Permission where
  | AlwaysAllow : Permission
  | AllowOnce : Permission
  | DenyOnce : Permission
deriving DecidableEq

/-- `enum PrincipalType { Extention, Tool }` (spelling as in the source). -/
inductive PrincipalType where
  | Extention : PrincipalType
  | Tool : PrincipalType
deriving DecidableEq

/-- `struct PermissionConfirmation { principal_name, principal_type, permission }` -/
structure PermissionConfirmation where
  principal_name : String
  principal_type : PrincipalType
  permission : Permission
deriving DecidableEq

/-- Derived `Serialize` for `Permission`: a unit variant serializes as a
string holding its literal variant name. -/
def Permission.encode : Permission → Json
  | .AlwaysAllow => .str "AlwaysAllow"
  | .AllowOnce => .str "AllowOnce"
  | .DenyOnce => .str "DenyOnce"

/-- Derived `Deserialize` for `Permission`: only the three variant-name tags
are accepted; any other input is an unknown-variant (malformed record)
error. -/
def Permission.decode : Json → Option Permission
  | .str s =>
      if s = "AlwaysAllow" then some .AlwaysAllow
      else if s = "AllowOnce" then some .AllowOnce
      else if s = "DenyOnce" then some .DenyOnce
      else none
  | _ => none

/-- Derived `Serialize` for `PrincipalType`: the literal variant names,
`"Extention"` (sic) and `"Tool"`. -/
def PrincipalType.encode : PrincipalType → Json
  | .Extention => .str "Extention"
  | .Tool => .str "Tool"

/-- Derived `Deserialize` for `PrincipalType`: only the two variant-name
tags are accepted. -/
def PrincipalType.decode : Json → Option PrincipalType
  | .str s =>
      if s = "Extention" then some .Extention
      else if s = "Tool" then some .Tool
      else none
  | _ => none

/-- Derived `Serialize` for `PermissionConfirmation`: a field map with the
three field names as keys, in declaration order. -/
def PermissionConfirmation.encode (c : PermissionConfirmation) : Json :=
  .obj [("principal_name", .str c.principal_name),
        ("principal_type", c.principal_type.encode),
        ("permission", c.permission.encode)]

/-- The field-map scan of the derived `Deserialize` visitor for
`PermissionConfirmation`, threading the three not-yet-seen/seen field
slots. A repeated known key or an invalid field value is an error; an
unknown key is skipped; a field still missing at the end is an error. -/
def PermissionConfirmation.decodeFields :
    List (String × Json) → Option String → Option PrincipalType →
      Option Permission → Option PermissionConfirmation
  | [], nameSlot, typeSlot, permSlot => do
      let n ← nameSlot
      let t ← typeSlot
      let p ← permSlot
      pure ⟨n, t, p⟩
  | (k, v) :: rest, nameSlot, typeSlot, permSlot =>
      if k = "principal_name" then
        match nameSlot, v with
        | some _, _ => none
        | none, .str s => decodeFields rest (some s) typeSlot permSlot
        | none, _ => none
      else if k = "principal_type" then
        match typeSlot, PrincipalType.decode v with
        | some _, _ => none
        | none, some t => decodeFields rest nameSlot (some t) permSlot
        | none, none => none
      else if k = "permission" then
        match permSlot, Permission.decode v with
        | some _, _ => none
        | none, some p => decodeFields rest nameSlot typeSlot (some p)
        | none, none => none
      else decodeFields rest nameSlot typeSlot permSlot

/-- Derived `Deserialize` for `PermissionConfirmation`: expects a field map
and scans its entries. -/
def PermissionConfirmation.decode : Json → Option PermissionConfirmation
  | .obj fields => PermissionConfirmation.decodeFields fields none none none
  | _ => none

/-- Rust's derived `PartialEq` on `Permission`: discriminant comparison. -/
def Permission.beqRust : Permission → Permission → Bool
  | .AlwaysAllow, .AlwaysAllow => true
  | .AllowOnce, .AllowOnce => true
  | .DenyOnce, .DenyOnce => true
  | _, _ => false

/-- Rust's derived `PartialEq` on `PrincipalType`: discriminant
comparison. -/
def PrincipalType.beqRust : PrincipalType → PrincipalType → Bool
  | .Extention, .Extention => true
  | .Tool, .Tool => true
  | _, _ => false

/-- The literal variant name under which each `Permission` value appears on
the wire (as the spec words it). -/
def Permission.variantName : Permission → String
  | .AlwaysAllow => "AlwaysAllow"
  | .AllowOnce => "AllowOnce"
  | .DenyOnce => "DenyOnce"

/-- The literal variant name under which each `PrincipalType` value appears
on the wire. -/
def PrincipalType.variantName : PrincipalType → String
  | .Extention => "Extention"
  | .Tool => "Tool"

/-- C1: encoding a `PermissionConfirmation` and decoding the result gives
back the original record in all three fields, for every name string and
every combination of enum values; the same round-trip law holds for
`Permission` and `PrincipalType` on their own. -/
theorem permission_confirmation_round_trip (c : PermissionConfirmation)
    (p : Permission) (t : PrincipalType) :
    PermissionConfirmation.decode (PermissionConfirmation.encode c) = some c ∧
    Permission.decode (Permission.encode p) = some p ∧
    PrincipalType.decode (PrincipalType.encode t) = some t := by
  refine ⟨?_, ?_, ?_⟩
  · obtain ⟨n, t', p'⟩ := c
    cases t' <;> cases p' <;> rfl
  · cases p <;> rfl
  · cases t <;> rfl

/-- C2: `Permission` has exactly the three values `AlwaysAllow`,
`AllowOnce`, `DenyOnce`; decoding any tag other than those three fails,
and in particular the tag `"AlwaysDeny"` fails rather than producing a
default variant. -/
theorem permission_closed_and_rejects_unknown (s : String)
    (h1 : s ≠ "AlwaysAllow") (h2 : s ≠ "AllowOnce") (h3 : s ≠ "DenyOnce") :
    (∀ p : Permission,
      p = .AlwaysAllow ∨ p = .AllowOnce ∨ p = .DenyOnce) ∧
    Permission.decode (Json.str s) = none ∧
    Permission.decode (Json.str "AlwaysDeny") = none := by
  refine ⟨fun p => by cases p <;> simp, ?_, rfl⟩
  simp [Permission.decode, h1, h2, h3]

/-- C2 witness at the concrete tag `"AlwaysDeny"`. -/
theorem permission_closed_and_rejects_unknown_witness :
    (∀ p : Permission,
      p = .AlwaysAllow ∨ p = .AllowOnce ∨ p = .DenyOnce) ∧
    Permission.decode (Json.str "AlwaysDeny") = none ∧
    Permission.decode (Json.str "AlwaysDeny") = none :=
  permission_closed_and_rejects_unknown "AlwaysDeny"
    (by decide) (by decide) (by decide)

/-- C3: `PrincipalType` has exactly the two values `Extention` and `Tool`;
decoding any other tag fails rather than producing a default. -/
theorem principal_type_closed_and_rejects_unknown (s : String)
    (h1 : s ≠ "Extention") (h2 : s ≠ "Tool") :
    (∀ t : PrincipalType, t = .Extention ∨ t = .Tool) ∧
    PrincipalType.decode (Json.str s) = none := by
  refine ⟨fun t => by cases t <;> simp, ?_⟩
  simp [PrincipalType.decode, h1, h2]

/-- C3 witness at the concrete tag `"Plugin"`. -/
theorem principal_type_closed_and_rejects_unknown_witness :
    (∀ t : PrincipalType, t = .Extention ∨ t = .Tool) ∧
    PrincipalType.decode (Json.str "Plugin") = none :=
  principal_type_closed_and_rejects_unknown "Plugin" (by decide) (by decide)

/-- C4 counterexample: the spec's example input spells the principal type
tag `"Extension"`, but the source variant is spelled `Extention`, so the
derived deserializer rejects the tag and the whole record fails to
decode. -/
theorem extension_spelled_input_fails_to_decode :
    PermissionConfirmation.decode (Json.obj
      [("principal_name", Json.str "jira-extension"),
       ("principal_type", Json.str "Extension"),
       ("permission", Json.str "DenyOnce")]) = none := rfl

/-- C4 amended: the same input with the principal type tag spelled
`"Extention"`, as in the source, decodes successfully into the record with
the extension principal kind and a one-time denial. -/
theorem extention_spelled_input_decodes :
    PermissionConfirmation.decode (Json.obj
      [("principal_name", Json.str "jira-extension"),
       ("principal_type", Json.str "Extention"),
       ("permission", Json.str "DenyOnce")]) =
      some ⟨"jira-extension", .Extention, .DenyOnce⟩ := rfl

/-- C5: the encoding of every record is a field map with exactly the keys
`principal_name`, `principal_type`, `permission` (in that order), whose
enum-valued entries are the literal variant-name tags; and each enum value
on its own encodes to the string holding its literal variant name. -/
theorem wire_format_field_names_and_tags (c : PermissionConfirmation) :
    c.encode = Json.obj
      [("principal_name", Json.str c.principal_name),
       ("principal_type", Json.str c.principal_type.variantName),
       ("permission", Json.str c.permission.variantName)] ∧
    (∀ p : Permission, p.encode = Json.str p.variantName) ∧
    (∀ t : PrincipalType, t.encode = Json.str t.variantName) := by
  refine ⟨?_, fun p => by cases p <;> rfl, fun t => by cases t <;> rfl⟩
  obtain ⟨n, t', p'⟩ := c
  cases t' <;> cases p' <;> rfl

/-- C6: the input with name `"web-search"`, type tag `"Tool"` and
permission tag `"AlwaysAllow"` decodes to exactly that record, and
re-encoding the record reproduces the input value. -/
theorem web_search_example_decodes_and_reencodes :
    PermissionConfirmation.decode (Json.obj
      [("principal_name", Json.str "web-search"),
       ("principal_type", Json.str "Tool"),
       ("permission", Json.str "AlwaysAllow")]) =
      some ⟨"web-search", .Tool, .AlwaysAllow⟩ ∧
    PermissionConfirmation.encode ⟨"web-search", .Tool, .AlwaysAllow⟩ =
      Json.obj
        [("principal_name", Json.str "web-search"),
         ("principal_type", Json.str "Tool"),
         ("permission", Json.str "AlwaysAllow")] := ⟨rfl, rfl⟩

/-- C7: the derived value equality on `Permission` and `PrincipalType`
holds exactly when the two values are the same variant, so it is reflexive
and distinguishes distinct variants. -/
theorem enum_value_equality :
    (∀ a b : Permission, Permission.beqRust a b = true ↔ a = b) ∧
    (∀ a b : PrincipalType, PrincipalType.beqRust a b = true ↔ a = b) := by
  constructor
  · intro a b
    cases a <;> cases b <;> simp [Permission.beqRust]
  · intro a b
    cases a <;> cases b <;> simp [PrincipalType.beqRust]

/-- C8: the extension variant is spelled `Extention` in the source, so it
encodes to the tag `"Extention"`, that tag decodes back to the variant,
and the correctly spelled tag `"Extension"` fails to decode. -/
theorem extention_spelling_on_the_wire :
    PrincipalType.encode .Extention = Json.str "Extention" ∧
    PrincipalType.decode (Json.str "Extention") = some .Extention ∧
    PrincipalType.decode (Json.str "Extension") = none := ⟨rfl, rfl, rfl⟩

/-- Unfolding step: deserializing from a field map starts the scan with all
three field slots empty. -/
theorem PermissionConfirmation.decode_obj (fields : List (String × Json)) :
    PermissionConfirmation.decode (Json.obj fields) =
      PermissionConfirmation.decodeFields fields none none none := rfl

/-- Scan step: the three declared fields at the head of the map, with valid
values, fill the three slots, whatever entries follow. -/
theorem PermissionConfirmation.decodeFields_main (n : String)
    (t : PrincipalType) (p : Permission) (rest : List (String × Json)) :
    PermissionConfirmation.decodeFields
      (("principal_name", Json.str n) :: ("principal_type", t.encode) ::
        ("permission", p.encode) :: rest) none none none =
      PermissionConfirmation.decodeFields rest (some n) (some t) (some p) := by
  cases t <;> cases p <;> rfl

set_option maxHeartbeats 1600000 in
/-- Scan step: an entry whose key is none of the three field names is
skipped. -/
theorem PermissionConfirmation.decodeFields_skip (k : String) (v : Json)
    (rest : List (String × Json)) (a : Option String)
    (b : Option PrincipalType) (c : Option Permission)
    (h1 : k ≠ "principal_name") (h2 : k ≠ "principal_type")
    (h3 : k ≠ "permission") :
    PermissionConfirmation.decodeFields ((k, v) :: rest) a b c =
      PermissionConfirmation.decodeFields rest a b c := by
  simp only [PermissionConfirmation.decodeFields, h1, h2, h3, if_false]

/-- C9: a field map holding the three expected fields with valid values
plus an additional unknown field decodes successfully (the unknown field
is skipped), while a field map missing any one of the three required
fields fails to decode. -/
theorem unknown_fields_skipped_missing_fields_fail (n : String)
    (t : PrincipalType) (p : Permission) (k : String) (v : Json)
    (h1 : k ≠ "principal_name") (h2 : k ≠ "principal_type")
    (h3 : k ≠ "permission") :
    PermissionConfirmation.decode (Json.obj
      [("principal_name", Json.str n), ("principal_type", t.encode),
       ("permission", p.encode), (k, v)]) = some ⟨n, t, p⟩ ∧
    PermissionConfirmation.decode (Json.obj
      [("principal_type", t.encode), ("permission", p.encode)]) = none ∧
    PermissionConfirmation.decode (Json.obj
      [("principal_name", Json.str n), ("permission", p.encode)]) = none ∧
    PermissionConfirmation.decode (Json.obj
      [("principal_name", Json.str n), ("principal_type", t.encode)]) = none := by
  refine ⟨?_, ?_, ?_, ?_⟩
  · rw [PermissionConfirmation.decode_obj,
      PermissionConfirmation.decodeFields_main,
      PermissionConfirmation.decodeFields_skip _ _ _ _ _ _ h1 h2 h3]
    rfl
  · cases t <;> cases p <;> rfl
  · cases p <;> rfl
  · cases t <;> rfl

/-- C9 witness with the concrete unknown field `("note", null)`. -/
theorem unknown_fields_skipped_missing_fields_fail_witness :
    PermissionConfirmation.decode (Json.obj
      [("principal_name", Json.str "web-search"),
       ("principal_type", PrincipalType.encode .Tool),
       ("permission", Permission.encode .AllowOnce),
       ("note", Json.null)]) = some ⟨"web-search", .Tool, .AllowOnce⟩ ∧
    PermissionConfirmation.decode (Json.obj
      [("principal_type", PrincipalType.encode .Tool),
       ("permission", Permission.encode .AllowOnce)]) = none ∧
    PermissionConfirmation.decode (Json.obj
      [("principal_name", Json.str "web-search"),
       ("permission", Permission.encode .AllowOnce)]) = none ∧
    PermissionConfirmation.decode (Json.obj
      [("principal_name", Json.str "web-search"),
       ("principal_type", PrincipalType.encode .Tool)]) = none :=
  unknown_fields_skipped_missing_fields_fail "web-search" .Tool .AllowOnce
    "note" Json.null (by decide) (by decide) (by decide)

/-- C10: encoding of `PermissionConfirmation` is injective: two records
with equal encodings are equal in all three fields, so records differing
in any field have different wire outputs. -/
theorem encode_injective (a b : PermissionConfirmation)
    (h : a.encode = b.encode) : a = b := by
  obtain ⟨n1, t1, p1⟩ := a
  obtain ⟨n2, t2, p2⟩ := b
  cases t1 <;> cases t2 <;> cases p1 <;> cases p2 <;>
    simp_all [PermissionConfirmation.encode, PrincipalType.encode,
      Permission.encode]

/-- C10 witness: the injectivity theorem applied at a concrete pair of
records with equal encodings. -/
theorem encode_injective_witness :
    (⟨"web-search", .Tool, .AllowOnce⟩ : PermissionConfirmation) =
      ⟨"web-search", .Tool, .AllowOnce⟩ :=
  encode_injective _ _ rfl
